import Mathlib

/-!
Verification development for the gomvc web toolkit.

This file gives a shallow embedding of the parts of the repository that the
verified properties talk about:

* the SQL query compilers `BuildQuery` (model.go) and `BuildQueryExtended`
  (model.go), together with the data types `SQLField`, `SQLTable`, `SQLJoin`
  and `Filter`;
* the login rate limiter (`IsBlocked`, `RecordFailedAttempt`,
  `ResetAttempts`, `cleanup`);
* the login handler `Controller.authAction` (controller.go) and the session
  functions of `AuthObject` (auth.go).

Go machine values are modelled as follows: `interface\x7b\x7d` values that flow
into query parameters become the inductive type `Val` (the only type assertion
the compilers perform is "is it a slice"); `time.Time` becomes `Nat`
(nanoseconds since an epoch, with the convention that the zero `time.Time` is
`0` and any `time.Now()` is positive); a Go function that can panic is
embedded with an `Option`/sum result whose failure constructor marks the
panic.  Strings are Lean `String`s; the Go byte-slicing `s[:len(s)-2]`, used
by `BuildQuery` only on strings ending in a two-byte ASCII suffix, is
embedded as dropping the last two characters.
-/

namespace Gomvc

/-! ### String helpers -/

/-- Concatenation of Go `strings.Join(elems, sep)`: the elements of the list
separated by `sep`. -/
def stringsJoin (sep : String) : List String → String
  | [] => ""
  | [a] => a
  | a :: b :: rest => a ++ sep ++ stringsJoin sep (b :: rest)

/-- Embedding of the Go byte slice `s[:len(s)-2]`.  At every call site in
`BuildQuery` the string ends with a two-byte ASCII suffix (`", "`, `" ("` or
similar), so removing the final two bytes is removing the final two
characters. -/
def trim2 (s : String) : String := String.mk s.data.dropLast.dropLast

/-! ### Query intents (model.go)

`QueryType` is a Go string type with the four constants below; an unknown
query type falls through to the `default` branch of the compiler. -/

def QueryTypeInsert : String := "c"
def QueryTypeSelect : String := "r"
def QueryTypeUpdate : String := "u"
def QueryTypeDelete : String := "d"

/-- A Go `interface\x7b\x7d` value used as a SQL parameter.  The only
structure the compilers inspect is whether the value is a slice
(`f.Value.([]interface\x7b\x7d)`), so scalars are collapsed to integers and
strings and a slice is a list of values. -/
inductive Val where
  | vInt (n : Int)
  | vStr (s : String)
  | vList (vs : List Val)

mutual

/-- Decidable equality for `Val` (hand-written because of the nested
list). -/
def Val.decEq : (a b : Val) → Decidable (a = b)
  | .vInt a, .vInt b =>
    if h : a = b then .isTrue (by rw [h]) else .isFalse (by intro c; cases c; exact h rfl)
  | .vStr a, .vStr b =>
    if h : a = b then .isTrue (by rw [h]) else .isFalse (by intro c; cases c; exact h rfl)
  | .vList as, .vList bs =>
    match Val.decEqList as bs with
    | .isTrue h => .isTrue (by rw [h])
    | .isFalse h => .isFalse (by intro c; cases c; exact h rfl)
  | .vInt _, .vStr _ => .isFalse nofun
  | .vInt _, .vList _ => .isFalse nofun
  | .vStr _, .vInt _ => .isFalse nofun
  | .vStr _, .vList _ => .isFalse nofun
  | .vList _, .vInt _ => .isFalse nofun
  | .vList _, .vStr _ => .isFalse nofun

/-- Decidable equality for lists of `Val`. -/
def Val.decEqList : (as bs : List Val) → Decidable (as = bs)
  | [], [] => .isTrue rfl
  | [], _ :: _ => .isFalse nofun
  | _ :: _, [] => .isFalse nofun
  | a :: as, b :: bs =>
    match Val.decEq a b with
    | .isFalse h => .isFalse (by intro c; cases c; exact h rfl)
    | .isTrue h1 =>
      match Val.decEqList as bs with
      | .isTrue h2 => .isTrue (by rw [h1, h2])
      | .isFalse h => .isFalse (by intro c; cases c; exact h rfl)

end

instance : DecidableEq Val := Val.decEq

/-- model.go `SQLField`: a column name / value pair for INSERT and UPDATE. -/
structure SQLField where
  FieldName : String
  Value : Val
  deriving DecidableEq

/-- model.go `SQLTable`. -/
structure SQLTable where
  TableName : String
  PKField : String
  deriving DecidableEq

/-- model.go `SQLKeyPair`. -/
structure SQLKeyPair where
  LocalKey : String
  ForeignKey : String
  deriving DecidableEq

/-- model.go `SQLJoin`; `Join_type` is the Go string type `JoinType`. -/
structure SQLJoin where
  Foreign_table : String
  Foreign_PK : String
  KeyPair : SQLKeyPair
  Join_type : String
  deriving DecidableEq

/-- model.go `Filter`: one WHERE predicate. -/
structure Filter where
  Field : String
  Operator : String
  Value : Val
  Logic : String
  deriving DecidableEq

/-! ### The legacy compiler `BuildQuery` (model.go lines 634-716)

The Go loops accumulate their clause strings left to right by repeated
append; they are embedded as structural recursions producing the same
concatenation. -/

/-- The SELECT-clause loop of `BuildQuery`: `s = s + fld.FieldName + ", "`
for each field.  Recursion emits the per-field contributions in loop
order. -/
def selectFieldsGo : List SQLField → String
  | [] => ""
  | fld :: rest => fld.FieldName ++ ", " ++ selectFieldsGo rest

/-- The `s` string of `BuildQuery`: joined field names with the final
`", "` sliced off (`s = s[:len(s)-2]`), or `"*"` when no field is given. -/
def selectClause (fields : List SQLField) : String :=
  if fields.length > 0 then trim2 (selectFieldsGo fields) else "*"

/-- The JOIN loop, textually identical in `BuildQuery` and
`BuildQueryExtended`. -/
def joinClause (table : SQLTable) : List SQLJoin → String
  | [] => ""
  | jn :: rest =>
      " " ++ jn.Join_type ++ " JOIN " ++ jn.Foreign_table ++ " ON " ++
        jn.Foreign_table ++ "." ++ jn.KeyPair.ForeignKey ++ "=" ++
        table.TableName ++ "." ++ jn.KeyPair.LocalKey ++
        joinClause table rest

/-- The WHERE loop of `BuildQuery`: every filter whose `Logic` is non-empty
is preceded by it (including the first), each filter emits
`(field operator ?)` and pushes its value. -/
def whereFoldGo : List Filter → String × List Val
  | [] => ("", [])
  | f :: rest =>
      let piece :=
        (if f.Logic.length > 0 then " " ++ f.Logic ++ " " else "") ++
          "(" ++ f.Field ++ " " ++ f.Operator ++ " ?)"
      let r := whereFoldGo rest
      (piece ++ r.1, f.Value :: r.2)

/-- The `w` string and parameter list of `BuildQuery`. -/
def whereClause (wheres : List Filter) : String × List Val :=
  if wheres.length > 0 then
    let p := whereFoldGo wheres
    (" WHERE " ++ p.1, p.2)
  else ("", [])

/-- model.go `BuildQuery`.  The result is `none` exactly when the Go code
panics: in the UPDATE branch the rotation `v0 := values[0]` indexes the
parameter list, which is empty when there is neither a SET field nor a
filter. -/
def BuildQuery (queryType : String) (fields : List SQLField) (table : SQLTable)
    (joins : List SQLJoin) (wheres : List Filter) (group order : String)
    (limit : Int) : Option (String × List Val) :=
  let s := selectClause fields
  let j := joinClause table joins
  let wv := whereClause wheres
  let w := wv.1
  let g := if group.length > 0 then " " ++ group else ""
  let o := if order.length > 0 then " " ++ order else ""
  let l := if limit > 0 then " LIMIT " ++ toString limit else ""
  if queryType == QueryTypeSelect then
    some ("SELECT " ++ s ++ " FROM " ++ table.TableName ++ j ++ w ++ g ++ o ++ l, wv.2)
  else if queryType == QueryTypeInsert then
    let q := ("INSERT INTO " ++ table.TableName ++ " (" ++ s ++ ") VALUES (")
      ++ selectPlaceholdersGo fields
    some (trim2 q ++ ")", wv.2 ++ fields.map (·.Value))
  else if queryType == QueryTypeUpdate then
    let q := ("UPDATE " ++ table.TableName ++ " SET ") ++ setPartsGo fields
    match wv.2 ++ fields.map (·.Value) with
    | [] => none
    | v0 :: rest => some (trim2 q ++ w, rest ++ [v0])
  else if queryType == QueryTypeDelete then
    some ("DELETE FROM " ++ table.TableName ++ w, wv.2)
  else
    some ("", wv.2)
where
  /-- The INSERT placeholder loop: `q = q + "?, "` per field (the values are
  appended to the parameter list in the same loop, in field order). -/
  selectPlaceholdersGo : List SQLField → String
    | [] => ""
    | _ :: rest => "?, " ++ selectPlaceholdersGo rest
  /-- The UPDATE SET loop: `q = q + fld.FieldName + " = ?, "` per field. -/
  setPartsGo : List SQLField → String
    | [] => ""
    | fld :: rest => fld.FieldName ++ " = ?, " ++ setPartsGo rest

/-! ### The extended compiler `BuildQueryExtended` (model.go lines 719-825) -/

/-- The slice coercion in the IN branch: `f.Value.([]interface\x7b\x7d)`
succeeds for a slice, and any other value is wrapped into a one-element
slice. -/
def inSeq : Val → List Val
  | .vList vs => vs
  | v => [v]

/-- The WHERE loop of `BuildQueryExtended`, carrying the loop index `i`:
the `Logic` prefix is only emitted for `i > 0`, and operator `IN` expands a
slice value into one `?` placeholder and one parameter per element. -/
def whereExtGo (i : Nat) : List Filter → String × List Val
  | [] => ("", [])
  | f :: rest =>
      let logicPart := if i > 0 ∧ f.Logic.length > 0 then " " ++ f.Logic ++ " " else ""
      let piece : String × List Val :=
        if f.Operator == "IN" then
          let inValues := inSeq f.Value
          (logicPart ++ "(" ++ f.Field ++ " IN (" ++
            stringsJoin ", " (inValues.map fun _ => "?") ++ "))", inValues)
        else
          (logicPart ++ "(" ++ f.Field ++ " " ++ f.Operator ++ " ?)", [f.Value])
      let r := whereExtGo (i + 1) rest
      (piece.1 ++ r.1, piece.2 ++ r.2)

/-- The `w` string and parameter list of `BuildQueryExtended`. -/
def whereClauseExt (wheres : List Filter) : String × List Val :=
  if wheres.length > 0 then
    let p := whereExtGo 0 wheres
    (" WHERE " ++ p.1, p.2)
  else ("", [])

/-- model.go `BuildQueryExtended`.  Total: no branch of the Go function can
panic (all clause strings are produced by `strings.Join`).  Note that the
UPDATE branch appends the SET-field values after the WHERE values and does
not perform the rotation the legacy compiler performs. -/
def BuildQueryExtended (queryType : String) (fields : List SQLField)
    (table : SQLTable) (joins : List SQLJoin) (wheres : List Filter)
    (group order : String) (limit offset : Int) : String × List Val :=
  let s := if fields.length > 0 then
      stringsJoin ", " (fields.map (·.FieldName)) else "*"
  let j := joinClause table joins
  let wv := whereClauseExt wheres
  let w := wv.1
  let g := if group.length > 0 then " " ++ group else ""
  let o := if order.length > 0 then " " ++ order else ""
  let l := if limit > 0 then
      " LIMIT " ++ toString limit ++
        (if offset > 0 then " OFFSET " ++ toString offset else "")
    else ""
  if queryType == QueryTypeSelect then
    ("SELECT " ++ s ++ " FROM " ++ table.TableName ++ j ++ w ++ g ++ o ++ l, wv.2)
  else if queryType == QueryTypeInsert then
    ("INSERT INTO " ++ table.TableName ++ " (" ++
        stringsJoin ", " (fields.map (·.FieldName)) ++ ") VALUES (" ++
        stringsJoin ", " (fields.map fun _ => "?") ++ ")",
      wv.2 ++ fields.map (·.Value))
  else if queryType == QueryTypeUpdate then
    ("UPDATE " ++ table.TableName ++ " SET " ++
        stringsJoin ", " (fields.map fun fld => fld.FieldName ++ " = ?") ++ w,
      wv.2 ++ fields.map (·.Value))
  else if queryType == QueryTypeDelete then
    ("DELETE FROM " ++ table.TableName ++ w, wv.2)
  else
    ("", wv.2)

/-! ### The rate limiter (ratelimiter file, src/unnamed/part_003)

Time is `Nat` nanoseconds; the zero `time.Time` is `0` and any `time.Now()`
is positive.  `t1.Before(t2)` is `t1 < t2`, `t1.After(t2)` is `t1 > t2` and
`t.IsZero()` is `t = 0`.  The identifier map is a function to `Option`
records; the map mutations of the Go methods become pointwise updates. -/

/-- `attemptRecord`: per-identifier failed-attempt state. -/
structure AttemptRecord where
  Count : Nat
  FirstAttempt : Nat
  BlockedUntil : Nat
  deriving DecidableEq

/-- `RateLimiter`: the identifier map plus its configuration. -/
structure RateLimiter where
  attempts : String → Option AttemptRecord
  MaxAttempts : Nat
  BlockDuration : Nat

/-- `NewRateLimiter`: empty map with the given configuration. -/
def NewRateLimiter (maxAttempts blockDuration : Nat) : RateLimiter :=
  { attempts := fun _ => none, MaxAttempts := maxAttempts,
    BlockDuration := blockDuration }

/-- `RateLimiter.IsBlocked`: true iff a record exists and `time.Now()` is
before its `BlockedUntil`. -/
def IsBlocked (rl : RateLimiter) (identifier : String) (now : Nat) : Bool :=
  match rl.attempts identifier with
  | none => false
  | some record => decide (now < record.BlockedUntil)

/-- `RateLimiter.RecordFailedAttempt`: create a fresh record with count 1;
reset an expired block to count 1; otherwise increment the count and, when
the count reaches `MaxAttempts`, set `BlockedUntil = now + BlockDuration`. -/
def RecordFailedAttempt (rl : RateLimiter) (identifier : String) (now : Nat) :
    RateLimiter :=
  match rl.attempts identifier with
  | none =>
    { rl with attempts := fun id =>
        if id = identifier then
          some { Count := 1, FirstAttempt := now, BlockedUntil := 0 }
        else rl.attempts id }
  | some record =>
    if record.BlockedUntil ≠ 0 ∧ now > record.BlockedUntil then
      { rl with attempts := fun id =>
          if id = identifier then
            some { Count := 1, FirstAttempt := now, BlockedUntil := 0 }
          else rl.attempts id }
    else
      let c := record.Count + 1
      let bu := if c ≥ rl.MaxAttempts then now + rl.BlockDuration
        else record.BlockedUntil
      { rl with attempts := fun id =>
          if id = identifier then
            some { Count := c, FirstAttempt := record.FirstAttempt,
                   BlockedUntil := bu }
          else rl.attempts id }

/-- `RateLimiter.ResetAttempts`: delete the identifier's record. -/
def ResetAttempts (rl : RateLimiter) (identifier : String) : RateLimiter :=
  { rl with attempts := fun id =>
      if id = identifier then none else rl.attempts id }

/-- `RateLimiter.GetBlockedUntil`. -/
def GetBlockedUntil (rl : RateLimiter) (identifier : String) : Nat :=
  match rl.attempts identifier with
  | none => 0
  | some record => record.BlockedUntil

/-- `RateLimiter.cleanup`, the body of one sweep of `cleanupLoop`: delete
every record with `!record.BlockedUntil.IsZero()` and
`now.After(record.BlockedUntil.Add(rl.BlockDuration))`. -/
def cleanup (rl : RateLimiter) (now : Nat) : RateLimiter :=
  { rl with attempts := fun id =>
      match rl.attempts id with
      | none => none
      | some record =>
        if record.BlockedUntil ≠ 0 ∧ now > record.BlockedUntil + rl.BlockDuration
        then none
        else some record }

/-- Two failed attempts for `x` recorded from the empty state of a limiter
configured with `MaxAttempts = 3`. -/
def rlTwoFails (x : String) (D t1 t2 : Nat) : RateLimiter :=
  RecordFailedAttempt (RecordFailedAttempt (NewRateLimiter 3 D) x t1) x t2

/-- Three failed attempts for `x` recorded from the empty state of a limiter
configured with `MaxAttempts = 3`. -/
def rlThreeFails (x : String) (D t1 t2 t3 : Nat) : RateLimiter :=
  RecordFailedAttempt (rlTwoFails x D t1 t2) x t3

/-- A limiter with `MaxAttempts = 2` and `BlockDuration = 10` after two
failed attempts for `id` at times 1 and 2: `id` is blocked until 12. -/
def rlBlockedId (id : String) : RateLimiter :=
  RecordFailedAttempt (RecordFailedAttempt (NewRateLimiter 2 10) id 1) id 2

/-- The documented filter-list discipline: the first filter carries empty
`Logic`, every later filter carries a non-empty `Logic`. -/
def wellFormedFilters : List Filter → Prop
  | [] => True
  | f :: rest => f.Logic = "" ∧ ∀ g ∈ rest, g.Logic ≠ ""

/-! ### Result rows and the auth flow (model.go, auth.go, controller.go)

A `ResultRow`'s values reach the auth code through `fmt.Sprint`, so values
are kept as strings.  The bcrypt primitive `CheckPasswordHash` is an
abstract boolean parameter of the handler model; the handler's observable
behaviour is a `LoginTrace` recording the database lookup, every executed
hash comparison, the rate-limiter operations and the response kind. -/

/-- model.go `ResultRow`, restricted to the two parallel sequences the auth
code reads. -/
structure ResultRowM where
  Fields : List String
  Values : List String
  deriving DecidableEq

/-- model.go `ResultRow.GetFieldIndex`: first index of the name, `-1` when
absent. -/
def GetFieldIndex (r : ResultRowM) (name : String) : Int :=
  match r.Fields.findIdx? (fun v => name == v) with
  | some i => (i : Int)
  | none => -1

/-- The value `r.Values[i]` read at a non-negative `GetFieldIndex` result
(in-bounds whenever `Values` is as long as `Fields`). -/
def valueAt (r : ResultRowM) (i : Int) : String :=
  r.Values.getD i.toNat ""

/-- The fixed precomputed dummy bcrypt hash from controller.go line 799,
compared against when no user row exists. -/
def dummyHash : String :=
  "$2a$12$R9h/cIPz0gi.URNNX3kh2OPST9/PgBkqquzi.Ss7KIUgO2t0jWMUW"

/-- Response kind of the login handler: internal server error, redisplayed
login view with the generic failure message, or the success response. -/
inductive AuthOutcome where
  | serverError
  | failPage
  | successPage
  deriving DecidableEq

/-- Observable behaviour of one `authAction` run. -/
structure LoginTrace where
  /-- whether `m.GetRecords` was called for the credential lookup -/
  lookupPerformed : Bool
  /-- every `Auth.CheckPasswordHash(password, hash)` call, in order -/
  comparisons : List (String × String)
  /-- number of `RecordFailedAttempt` calls on the IP limiter -/
  ipRecorded : Nat
  /-- number of `RecordFailedAttempt` calls on the username limiter -/
  userRecorded : Nat
  /-- whether `ResetAttempts` was called on the IP limiter -/
  ipReset : Bool
  /-- whether `ResetAttempts` was called on the username limiter -/
  userReset : Bool
  outcome : AuthOutcome
  /-- whether an artificial `time.Sleep` delay ran before responding -/
  delayed : Bool
  deriving DecidableEq

/-- The guarded limiter check `c.XRateLimiter != nil && IsBlocked(...)`. -/
def limiterBlocked (orl : Option RateLimiter) (identifier : String)
    (now : Nat) : Bool :=
  match orl with
  | some rl => IsBlocked rl identifier now
  | none => false

/-- The tail of `authAction` from controller.go line 805: the single
`CheckPasswordHash` call followed by the success/failure branch.  On
success both limiters are reset and the row update runs (`updateOk` is
whether `m.Update` succeeded); on failure both configured limiters record
one failed attempt and a randomized delay runs. -/
def authVerify (ipRL userRL : Option RateLimiter) (password : String)
    (userExists : Bool) (storedPasswordHash : String)
    (checkHash : String → String → Bool) (updateOk : Bool) : LoginTrace :=
  let passwordValid := checkHash password storedPasswordHash
  if userExists && passwordValid then
    { lookupPerformed := true, comparisons := [(password, storedPasswordHash)],
      ipRecorded := 0, userRecorded := 0,
      ipReset := ipRL.isSome, userReset := userRL.isSome,
      outcome := if updateOk then .successPage else .serverError,
      delayed := false }
  else
    { lookupPerformed := true, comparisons := [(password, storedPasswordHash)],
      ipRecorded := if ipRL.isSome then 1 else 0,
      userRecorded := if userRL.isSome then 1 else 0,
      ipReset := false, userReset := false,
      outcome := .failPage, delayed := true }

/-- controller.go `Controller.authAction` (lines 678-882).  Inputs: whether
the controller options lookup succeeded, the two optional limiters and the
current time, the client IP, the submitted form credentials, the outcome the
credential lookup `m.GetRecords(f, 1)` would produce, the bcrypt comparison
oracle, the configured password and primary-key field names, and whether the
success-path `m.Update` succeeds.  Output: the observable trace. -/
def authAction (optionsOk : Bool) (ipRL userRL : Option RateLimiter)
    (now : Nat) (clientIP username password : String)
    (db : Except String (List ResultRowM))
    (checkHash : String → String → Bool)
    (passwordFieldName pkFieldName : String) (updateOk : Bool) : LoginTrace :=
  if optionsOk = false then
    { lookupPerformed := false, comparisons := [], ipRecorded := 0,
      userRecorded := 0, ipReset := false, userReset := false,
      outcome := .serverError, delayed := false }
  else if limiterBlocked ipRL clientIP now then
    { lookupPerformed := false, comparisons := [], ipRecorded := 0,
      userRecorded := 0, ipReset := false, userReset := false,
      outcome := .failPage, delayed := true }
  else if username.length = 0 ∨ password.length = 0 then
    { lookupPerformed := false, comparisons := [], ipRecorded := 0,
      userRecorded := 0, ipReset := false, userReset := false,
      outcome := .failPage, delayed := true }
  else if limiterBlocked userRL username now then
    { lookupPerformed := false, comparisons := [],
      ipRecorded := if ipRL.isSome then 1 else 0, userRecorded := 0,
      ipReset := false, userReset := false,
      outcome := .failPage, delayed := true }
  else
    match db with
    | .error _ =>
      { lookupPerformed := true, comparisons := [], ipRecorded := 0,
        userRecorded := 0, ipReset := false, userReset := false,
        outcome := .serverError, delayed := false }
    | .ok rr =>
      match rr with
      | [] => authVerify ipRL userRL password false dummyHash checkHash updateOk
      | r0 :: _ =>
        let pIndx := GetFieldIndex r0 passwordFieldName
        if pIndx = -1 then
          { lookupPerformed := true, comparisons := [], ipRecorded := 0,
            userRecorded := 0, ipReset := false, userReset := false,
            outcome := .serverError, delayed := false }
        else
          let storedPasswordHash := valueAt r0 pIndx
          let idIndx := GetFieldIndex r0 pkFieldName
          if idIndx = -1 then
            { lookupPerformed := true, comparisons := [], ipRecorded := 0,
              userRecorded := 0, ipReset := false, userReset := false,
              outcome := .serverError, delayed := false }
          else
            authVerify ipRL userRL password true storedPasswordHash checkHash
              updateOk

/-! ### `AuthObject.KillAuthSession` (auth.go lines 103-132)

Time here is `Int` nanoseconds, so that `time.Now().UTC().Add(-1)` is
`now - 1`. -/

/-- Result of a `KillAuthSession` run: runtime panic (out-of-range slice
index), returned error, or returned nil. -/
inductive KillResult where
  | panicIndexOutOfRange
  | errResult (e : String)
  | okNil
  deriving DecidableEq

/-- Observable behaviour of one `KillAuthSession` run: the result and the
issued `Model.Update` (expiry field name and new expiry time), if any. -/
structure KillTrace where
  result : KillResult
  update : Option (String × Int)
  deriving DecidableEq

/-- auth.go `AuthObject.KillAuthSession`.  Inputs: the length of the
configured session key, whether the session store holds that key, the
outcome the token lookup `a.Model.GetRecords(f, 1)` would produce, the
configured expiry and primary-key field names, and the current time. -/
def KillAuthSession (sessionKeyLen : Nat) (sessionExists : Bool)
    (db : Except String (List ResultRowM))
    (expTimeFieldName pkFieldName : String) (now : Int) : KillTrace :=
  if sessionKeyLen > 0 then
    if sessionExists = false then
      { result := .okNil, update := none }
    else
      match db with
      | .error e => { result := .errResult e, update := none }
      | .ok user_rr =>
        match user_rr with
        | [] =>
          -- Go: `user_rr[0].GetFieldIndex(...)` on the empty result slice
          { result := .panicIndexOutOfRange, update := none }
        | r0 :: _ =>
          let t1 := now - 1
          let id_indx := GetFieldIndex r0 pkFieldName
          if id_indx = -1 then
            -- Go: `user_rr[0].Values[id_indx]` with a negative index
            { result := .panicIndexOutOfRange, update := none }
          else
            { result := .okNil, update := some (expTimeFieldName, t1) }
  else
    { result := .okNil, update := none }

/-! ### Helper lemmas -/

/-- Slicing off a final two-character suffix. -/
theorem trim2_append (s t : String) (h : t.data.length = 2) :
    trim2 (s ++ t) = s := by
  apply String.ext
  show ((s ++ t).data.dropLast).dropLast = s.data
  rw [String.data_append]
  match t, h with
  | ⟨[a, b]⟩, _ =>
    show ((s.data ++ [a, b]).dropLast).dropLast = s.data
    have : s.data ++ [a, b] = (s.data ++ [a]) ++ [b] := by simp
    rw [this, List.dropLast_concat, List.dropLast_concat]

/-- Unfolding lemma: the record stored for `id` after
`RecordFailedAttempt rl id now`, in terms of the previous record. -/
theorem RFA_attempts_self (rl : RateLimiter) (id : String) (now : Nat) :
    (RecordFailedAttempt rl id now).attempts id =
      match rl.attempts id with
      | none => some { Count := 1, FirstAttempt := now, BlockedUntil := 0 }
      | some record =>
        if record.BlockedUntil ≠ 0 ∧ now > record.BlockedUntil then
          some { Count := 1, FirstAttempt := now, BlockedUntil := 0 }
        else
          some { Count := record.Count + 1,
                 FirstAttempt := record.FirstAttempt,
                 BlockedUntil :=
                   if record.Count + 1 ≥ rl.MaxAttempts then
                     now + rl.BlockDuration
                   else record.BlockedUntil } := by
  unfold RecordFailedAttempt
  cases h : rl.attempts id with
  | none => simp
  | some record =>
    by_cases hc : record.BlockedUntil ≠ 0 ∧ record.BlockedUntil < now
    · simp [hc]
    · simp [hc]

theorem whereFoldGo_snd (wheres : List Filter) :
    (whereFoldGo wheres).2 = wheres.map (·.Value) := by
  induction wheres with
  | nil => rfl
  | cons f rest ih => simp [whereFoldGo, ih]

theorem whereClause_snd (wheres : List Filter) :
    (whereClause wheres).2 = wheres.map (·.Value) := by
  unfold whereClause
  cases wheres with
  | nil => rfl
  | cons f rest => simp [whereFoldGo_snd]

/-! ### Claim C2 -/

/-- C2: evaluation of `BuildQueryExtended` at an UPDATE intent with one SET
field and a single primary-key equality filter.  The compiled text emits the
SET placeholder before the WHERE placeholder, but the parameter list is
`[7, "Bob"]`: the primary-key filter value comes FIRST, not last, because
the extended compiler appends the WHERE parameter before the SET parameters
and, unlike the legacy `BuildQuery`, never rotates it to the end. -/
theorem C2_extended_update_param_order :
    BuildQueryExtended QueryTypeUpdate
        [{ FieldName := "name", Value := .vStr "Bob" }]
        { TableName := "users", PKField := "id" } []
        [{ Field := "id", Operator := "=", Value := .vStr "7", Logic := "" }]
        "" "" 0 0
      = ("UPDATE users SET name = ? WHERE (id = ?)",
         [.vStr "7", .vStr "Bob"]) := by
  decide

/-! ### Claim C6 -/

/-- C6 counterexample: compilation is not total.  `BuildQuery` on an UPDATE
intent with an empty field list and an empty filter list panics in Go
(`v0 := values[0]` indexes the empty parameter slice), embedded here as the
`none` result. -/
theorem C6_update_empty_none :
    BuildQuery QueryTypeUpdate [] { TableName := "users", PKField := "id" }
        [] [] "" "" 0 = none := by
  decide

/-- C6 amended: query compilation is total except for exactly one malformed
intent shape: an UPDATE with an empty field list and an empty filter list,
where the Go code panics indexing `values[0]`.  Every other intent,
including an INSERT with an empty field list, compiles to a statement and
parameter list. -/
theorem C6_compile_totality_amended (queryType : String)
    (fields : List SQLField) (table : SQLTable) (joins : List SQLJoin)
    (wheres : List Filter) (group order : String) (limit : Int) :
    BuildQuery queryType fields table joins wheres group order limit = none ↔
      queryType = QueryTypeUpdate ∧ fields = [] ∧ wheres = [] := by
  by_cases hu : queryType = QueryTypeUpdate
  · subst hu
    have e1 : (QueryTypeUpdate == QueryTypeSelect) = false := by decide
    have e2 : (QueryTypeUpdate == QueryTypeInsert) = false := by decide
    have e3 : (QueryTypeUpdate == QueryTypeUpdate) = true := by decide
    simp only [BuildQuery, e1, e2, e3, Bool.false_eq_true, if_false, if_true,
      whereClause_snd]
    cases hl : wheres.map (·.Value) ++ fields.map (·.Value) with
    | nil =>
      rw [List.append_eq_nil] at hl
      rw [List.map_eq_nil_iff] at hl
      rw [List.map_eq_nil_iff] at hl
      simp [hl.1, hl.2]
    | cons v0 rest =>
      simp only [reduceCtorEq, false_iff]
      rintro ⟨-, hf, hw⟩
      subst hf
      subst hw
      simp at hl
  · constructor
    · intro hnone
      exfalso
      apply hu
      unfold BuildQuery at hnone
      by_cases h1 : (queryType == QueryTypeSelect) = true <;>
        by_cases h2 : (queryType == QueryTypeInsert) = true <;>
          by_cases h3 : (queryType == QueryTypeUpdate) = true <;>
            by_cases h4 : (queryType == QueryTypeDelete) = true <;>
              simp only [h1, h2, h3, h4, Bool.not_eq_true, if_true, if_false] at hnone <;>
                first
                  | exact beq_iff_eq.mp h3
                  | simp at hnone
    · rintro ⟨hq, -, -⟩
      exact absurd hq hu

/-! ### Claim C3 -/

/-- C3: with `MaxAttempts = 3` and any positive block duration `D`, starting
from the empty state: after two failed attempts `x` is not blocked (at any
time); after the third it is blocked; `ResetAttempts` immediately unblocks
it; at any time strictly after the block expiry `t3 + D` it is no longer
blocked and the next failed attempt restarts the count at 1. -/
theorem C3_rate_limiter_trace (x : String) (D t1 t2 t3 t4 : Nat)
    (hD : 1 ≤ D) (ht4 : t3 + D < t4) :
    (∀ t, IsBlocked (rlTwoFails x D t1 t2) x t = false) ∧
    IsBlocked (rlThreeFails x D t1 t2 t3) x t3 = true ∧
    (∀ t, IsBlocked (ResetAttempts (rlThreeFails x D t1 t2 t3) x) x t = false) ∧
    IsBlocked (rlThreeFails x D t1 t2 t3) x t4 = false ∧
    (RecordFailedAttempt (rlThreeFails x D t1 t2 t3) x t4).attempts x =
      some { Count := 1, FirstAttempt := t4, BlockedUntil := 0 } := by
  have h1 : (RecordFailedAttempt (NewRateLimiter 3 D) x t1).attempts x =
      some { Count := 1, FirstAttempt := t1, BlockedUntil := 0 } := by
    simp [RecordFailedAttempt, NewRateLimiter]
  have h2 : (rlTwoFails x D t1 t2).attempts x =
      some { Count := 2, FirstAttempt := t1, BlockedUntil := 0 } := by
    unfold rlTwoFails
    rw [RFA_attempts_self, h1]
    norm_num [RecordFailedAttempt, NewRateLimiter]
  have h3 : (rlThreeFails x D t1 t2 t3).attempts x =
      some { Count := 3, FirstAttempt := t1, BlockedUntil := t3 + D } := by
    unfold rlThreeFails
    rw [RFA_attempts_self, h2]
    norm_num [rlTwoFails, RecordFailedAttempt, NewRateLimiter]
  refine ⟨fun t => ?_, ?_, fun t => ?_, ?_, ?_⟩
  · simp [IsBlocked, h2]
  · simp only [IsBlocked, h3]
    simp only [decide_eq_true_eq]
    omega
  · simp [IsBlocked, ResetAttempts]
  · simp only [IsBlocked, h3]
    simp only [decide_eq_false_iff_not]
    omega
  · have hne : t3 + D ≠ 0 := by omega
    rw [RFA_attempts_self, h3]
    simp [hne, ht4]

/-- C3 witness: the trace at `x = "x"`, `D = 10`, attempt times 1, 2, 3 and
a post-expiry time 14. -/
theorem C3_witness :
    IsBlocked (rlTwoFails "x" 10 1 2) "x" 2 = false ∧
    IsBlocked (rlThreeFails "x" 10 1 2 3) "x" 3 = true ∧
    IsBlocked (ResetAttempts (rlThreeFails "x" 10 1 2 3) "x") "x" 3 = false ∧
    IsBlocked (rlThreeFails "x" 10 1 2 3) "x" 14 = false ∧
    (RecordFailedAttempt (rlThreeFails "x" 10 1 2 3) "x" 14).attempts "x" =
      some { Count := 1, FirstAttempt := 14, BlockedUntil := 0 } := by
  have h := C3_rate_limiter_trace "x" 10 1 2 3 14 (by decide) (by decide)
  exact ⟨h.1 2, h.2.1, h.2.2.1 3, h.2.2.2.1, h.2.2.2.2⟩

/-! ### Claim C4 -/

/-- C4 counterexample: a record created by a single failed attempt that is
never retried has `BlockedUntil = 0`, so the sweep's removal condition
`!record.BlockedUntil.IsZero() && now.After(...)` is never satisfied for it:
the claim says such a record is removed by the sweep, but even a sweep run
arbitrarily far in the future (here one million time units after an attempt
at time 5, far beyond `BlockedUntil + BlockDuration`) keeps it in the map. -/
theorem C4_oneoff_record_survives_sweep :
    (cleanup (RecordFailedAttempt (NewRateLimiter 3 10) "a" 5) 1000000).attempts
        "a" = some { Count := 1, FirstAttempt := 5, BlockedUntil := 0 } := by
  decide

/-- C4 amended: the sweep removes exactly the records that were actually
blocked (`BlockedUntil` nonzero) and whose block expiry plus one further
block duration has strictly elapsed; a record that was never blocked
(`BlockedUntil = 0`), such as one created by a one-off failed attempt that
is never retried, is never removed by the sweep. -/
theorem C4_cleanup_amended (rl : RateLimiter) (id : String) (now : Nat)
    (record : AttemptRecord) (h : rl.attempts id = some record) :
    (record.BlockedUntil ≠ 0 → record.BlockedUntil + rl.BlockDuration < now →
      (cleanup rl now).attempts id = none) ∧
    (record.BlockedUntil = 0 → (cleanup rl now).attempts id = some record) := by
  constructor
  · intro hbu hlt
    simp [cleanup, h, hbu, hlt]
  · intro hbu
    simp [cleanup, h, hbu]

/-- C4 witness: both parts of the amended statement at concrete states: a
record blocked until 11 in a limiter with block duration 10 is removed by a
sweep at time 100, and a never-blocked record is kept by the same sweep. -/
theorem C4_witness :
    (cleanup
        { attempts := fun id =>
            if id = "a" then
              some { Count := 3, FirstAttempt := 1, BlockedUntil := 11 }
            else none,
          MaxAttempts := 3, BlockDuration := 10 } 100).attempts "a" = none ∧
    (cleanup
        { attempts := fun id =>
            if id = "b" then
              some { Count := 1, FirstAttempt := 1, BlockedUntil := 0 }
            else none,
          MaxAttempts := 3, BlockDuration := 10 } 100).attempts "b" =
      some { Count := 1, FirstAttempt := 1, BlockedUntil := 0 } := by
  constructor
  · exact (C4_cleanup_amended _ "a" 100
      { Count := 3, FirstAttempt := 1, BlockedUntil := 11 } (by decide)).1
      (by decide) (by decide)
  · exact (C4_cleanup_amended _ "b" 100
      { Count := 1, FirstAttempt := 1, BlockedUntil := 0 } (by decide)).2 rfl

/-! ### Claim C5 -/

/-- C5 counterexample: with `MaxAttempts = 2` and `BlockDuration = 10`,
failed attempts for `"x"` at times 1 and 2 set `BlockedUntil = 12`; a third
failed attempt at time 3, made while the block is still active, re-assigns
`BlockedUntil = 13`: `blockedUntil` is NOT set exactly once per block
episode. -/
theorem C5_blockedUntil_reassigned :
    IsBlocked (rlBlockedId "x") "x" 3 = true ∧
    GetBlockedUntil (rlBlockedId "x") "x" = 12 ∧
    GetBlockedUntil (RecordFailedAttempt (rlBlockedId "x") "x" 3) "x" = 13 := by
  decide

/-- C5 amended: `blockedUntil` stays zero while the incremented count is
still below `MaxAttempts`, and on every failed attempt that does not hit the
expired-block reset path and whose incremented count reaches `MaxAttempts` —
including attempts made during a still-active block — `blockedUntil` is
(re)assigned to `now + BlockDuration`; so it can change several times within
one block episode. -/
theorem C5_blockedUntil_amended (rl : RateLimiter) (id : String) (now : Nat)
    (record : AttemptRecord) (h : rl.attempts id = some record) :
    (record.BlockedUntil = 0 → record.Count + 1 < rl.MaxAttempts →
      (RecordFailedAttempt rl id now).attempts id =
        some { Count := record.Count + 1, FirstAttempt := record.FirstAttempt,
               BlockedUntil := 0 }) ∧
    (¬(record.BlockedUntil ≠ 0 ∧ record.BlockedUntil < now) →
      rl.MaxAttempts ≤ record.Count + 1 →
      (RecordFailedAttempt rl id now).attempts id =
        some { Count := record.Count + 1, FirstAttempt := record.FirstAttempt,
               BlockedUntil := now + rl.BlockDuration }) := by
  constructor
  · intro hbu hlt
    have hnotmax : ¬(rl.MaxAttempts ≤ record.Count + 1) := by omega
    simp [RecordFailedAttempt, h, hbu, hnotmax]
  · intro hcond hmax
    simp [RecordFailedAttempt, h, hcond, hmax]

/-- C5 witness: both parts of the amended statement on concrete limiter
states: a first retry below the maximum keeps `BlockedUntil = 0`, and a
failed attempt at time 3 during an active block (until 12) re-assigns
`BlockedUntil = 13`. -/
theorem C5_witness :
    (RecordFailedAttempt
        { attempts := fun id =>
            if id = "x" then
              some { Count := 1, FirstAttempt := 1, BlockedUntil := 0 }
            else none,
          MaxAttempts := 3, BlockDuration := 10 } "x" 2).attempts "x" =
      some { Count := 2, FirstAttempt := 1, BlockedUntil := 0 } ∧
    (RecordFailedAttempt
        { attempts := fun id =>
            if id = "x" then
              some { Count := 2, FirstAttempt := 1, BlockedUntil := 12 }
            else none,
          MaxAttempts := 2, BlockDuration := 10 } "x" 3).attempts "x" =
      some { Count := 3, FirstAttempt := 1, BlockedUntil := 13 } := by
  constructor
  · exact (C5_blockedUntil_amended _ "x" 2
      { Count := 1, FirstAttempt := 1, BlockedUntil := 0 } (by decide)).1
      rfl (by decide)
  · exact (C5_blockedUntil_amended _ "x" 3
      { Count := 2, FirstAttempt := 1, BlockedUntil := 12 } (by decide)).2
      (by decide) (by decide)

/-! ### Claim C7 -/

/-- Number of placeholders produced by joining `n` copies of `"?"` with
`", "`. -/
theorem qcount (n : Nat) :
    List.count '?' (stringsJoin ", " (List.replicate n "?")).data = n := by
  induction n with
  | zero => rfl
  | succ m ih =>
    cases m with
    | zero => rfl
    | succ k =>
      simp only [List.replicate_succ] at ih ⊢
      simp only [stringsJoin]
      rw [String.data_append, String.data_append]
      rw [List.count_append, List.count_append]
      rw [ih]
      have e1 : List.count '?' ("?" : String).data = 1 := rfl
      have e2 : List.count '?' (", " : String).data = 0 := rfl
      rw [e1, e2]
      omega

/-- C7: an `IN` filter compiled by `BuildQueryExtended` emits one `?`
placeholder per element of the (coerced) sequence value and contributes
exactly those elements, in order, as parameters; a non-slice value is
coerced to a one-element sequence; and the empty sequence compiles to an
`IN ()` predicate with zero parameters (the compiler is a total function,
so this input cannot crash it). -/
theorem C7_in_expansion (tbl : SQLTable) (fld : String) (v : Val)
    (htbl : List.count '?' tbl.TableName.data = 0)
    (hfld : List.count '?' fld.data = 0) :
    List.count '?'
        (BuildQueryExtended QueryTypeSelect [] tbl []
            [{ Field := fld, Operator := "IN", Value := v, Logic := "" }]
            "" "" 0 0).1.data = (inSeq v).length ∧
    (BuildQueryExtended QueryTypeSelect [] tbl []
        [{ Field := fld, Operator := "IN", Value := v, Logic := "" }]
        "" "" 0 0).2 = inSeq v ∧
    ((∀ vs, v ≠ Val.vList vs) → inSeq v = [v]) ∧
    (v = Val.vList [] →
      (BuildQueryExtended QueryTypeSelect [] tbl []
          [{ Field := fld, Operator := "IN", Value := v, Logic := "" }]
          "" "" 0 0).1 =
        "SELECT * FROM " ++ tbl.TableName ++ " WHERE (" ++ fld ++ " IN ())") := by
  refine ⟨?_, ?_, ?_, ?_⟩
  · have c1 : List.count '?' ("SELECT " : String).data = 0 := rfl
    have c2 : List.count '?' ("*" : String).data = 0 := rfl
    have c3 : List.count '?' (" FROM " : String).data = 0 := rfl
    have c4 : List.count '?' (" WHERE " : String).data = 0 := rfl
    have c5 : List.count '?' ("(" : String).data = 0 := rfl
    have c6 : List.count '?' (" IN (" : String).data = 0 := rfl
    have c7 : List.count '?' ("))" : String).data = 0 := rfl
    have c8 : List.count '?' ("" : String).data = 0 := rfl
    simp [BuildQueryExtended, whereClauseExt, whereExtGo, joinClause,
      String.data_append, List.count_append, htbl, hfld, qcount,
      c1, c2, c3, c4, c5, c6, c7, c8]
  · simp [BuildQueryExtended, whereClauseExt, whereExtGo]
  · intro h
    cases v with
    | vInt n => rfl
    | vStr s => rfl
    | vList vs => exact absurd rfl (h vs)
  · intro hv
    subst hv
    simp [BuildQueryExtended, whereClauseExt, whereExtGo, inSeq, joinClause,
      stringsJoin]
    have hw : ∀ X : String, " WHERE " ++ ("(" ++ X) = " WHERE (" ++ X := by
      intro X
      have hm : (" WHERE " ++ "(" : String) = " WHERE (" := rfl
      rw [← String.append_assoc, hm]
    simp [String.append_assoc, hw]

/-- C7 witness: the `IN` expansion evaluated at concrete filters: a
two-element sequence, a non-sequence scalar, and the empty sequence. -/
theorem C7_witness :
    List.count '?' (BuildQueryExtended QueryTypeSelect []
        { TableName := "users", PKField := "id" } []
        [{ Field := "status", Operator := "IN",
           Value := .vList [.vInt 1, .vInt 2], Logic := "" }]
        "" "" 0 0).1.data = 2 ∧
    (BuildQueryExtended QueryTypeSelect []
        { TableName := "users", PKField := "id" } []
        [{ Field := "status", Operator := "IN",
           Value := .vList [.vInt 1, .vInt 2], Logic := "" }]
        "" "" 0 0).2 = [Val.vInt 1, Val.vInt 2] ∧
    (BuildQueryExtended QueryTypeSelect []
        { TableName := "users", PKField := "id" } []
        [{ Field := "status", Operator := "IN", Value := .vInt 7, Logic := "" }]
        "" "" 0 0).2 = [Val.vInt 7] ∧
    (BuildQueryExtended QueryTypeSelect []
        { TableName := "users", PKField := "id" } []
        [{ Field := "status", Operator := "IN", Value := .vList [], Logic := "" }]
        "" "" 0 0).1 = "SELECT * FROM users WHERE (status IN ())" := by
  have h1 := C7_in_expansion { TableName := "users", PKField := "id" } "status"
    (.vList [.vInt 1, .vInt 2]) (by decide) (by decide)
  have h2 := C7_in_expansion { TableName := "users", PKField := "id" } "status"
    (.vInt 7) (by decide) (by decide)
  have h3 := C7_in_expansion { TableName := "users", PKField := "id" } "status"
    (.vList []) (by decide) (by decide)
  exact ⟨h1.1, h1.2.1, h2.2.1, h3.2.2.2 rfl⟩

/-! ### Claim C1 -/

/-- C1: for a handled login POST with non-empty submitted credentials where
neither limiter check reports a block and the credential lookup succeeds,
exactly one `CheckPasswordHash` comparison is executed whether or not a row
was returned — against the row's stored hash (read at the configured
password field) when a row exists, against the fixed precomputed dummy hash
when not — provided a returned row carries the configured password and
primary-key fields (which the credentials-table contract guarantees; if the
row lacks them, the handler takes an early server-error return instead). -/
theorem C1_constant_path (ipRL userRL : Option RateLimiter) (now : Nat)
    (clientIP username password : String) (rows : List ResultRowM)
    (checkHash : String → String → Bool) (pwF pkF : String) (updateOk : Bool)
    (hu : username.length ≠ 0) (hp : password.length ≠ 0)
    (hip : limiterBlocked ipRL clientIP now = false)
    (husr : limiterBlocked userRL username now = false)
    (hrow : ∀ r0 rest, rows = r0 :: rest →
      GetFieldIndex r0 pwF ≠ -1 ∧ GetFieldIndex r0 pkF ≠ -1) :
    (authAction true ipRL userRL now clientIP username password (.ok rows)
        checkHash pwF pkF updateOk).comparisons =
      [(password,
        match rows with
        | [] => dummyHash
        | r0 :: _ => valueAt r0 (GetFieldIndex r0 pwF))] := by
  cases rows with
  | nil =>
    simp only [authAction, hip, husr, hu, hp]
    simp [authVerify]
  | cons r0 rest =>
    obtain ⟨hpw, hpk⟩ := hrow r0 rest rfl
    simp only [authAction, hip, husr, hu, hp]
    simp [authVerify, hpw, hpk]
    cases checkHash password (valueAt r0 (GetFieldIndex r0 pwF)) <;> simp

/-- C1 witness: the nonexistent-username run compares against the dummy
hash, and the wrong-password run (stored hash `"h1"`, oracle rejecting)
compares against the stored hash; both runs execute exactly one
comparison. -/
theorem C1_witness :
    (authAction true none none 5 "1.2.3.4" "alice" "pw" (.ok [])
        (fun _ _ => false) "pass" "id" true).comparisons =
      [("pw", dummyHash)] ∧
    (authAction true none none 5 "1.2.3.4" "alice" "pw"
        (.ok [{ Fields := ["id", "pass"], Values := ["1", "h1"] }])
        (fun _ _ => false) "pass" "id" true).comparisons = [("pw", "h1")] := by
  constructor
  · exact C1_constant_path none none 5 "1.2.3.4" "alice" "pw" []
      (fun _ _ => false) "pass" "id" true (by decide) (by decide) rfl rfl
      (by intro r0 rest h; cases h)
  · exact C1_constant_path none none 5 "1.2.3.4" "alice" "pw"
      [{ Fields := ["id", "pass"], Values := ["1", "h1"] }]
      (fun _ _ => false) "pass" "id" true (by decide) (by decide) rfl rfl
      (by intro r0 rest h; cases h; exact ⟨by decide, by decide⟩)

/-! ### Claim C8 -/

/-- C8 counterexample: with only a username limiter configured (no IP
limiter) and the submitted username blocked, the handler does return the
generic failure after a delay without a lookup, but it records zero failed
attempts against the caller's IP — the claim's unconditional "records one
failed attempt against the caller's IP" fails. -/
theorem C8_no_ip_record :
    IsBlocked (rlBlockedId "alice") "alice" 3 = true ∧
    authAction true none (some (rlBlockedId "alice")) 3 "1.2.3.4" "alice" "pw"
        (.ok []) (fun _ _ => false) "pass" "id" true =
      { lookupPerformed := false, comparisons := [], ipRecorded := 0,
        userRecorded := 0, ipReset := false, userReset := false,
        outcome := .failPage, delayed := true } := by
  decide

/-- C8 amended: a blocked caller IP (with an IP limiter configured) makes
`authAction` return the generic failure page after the artificial delay with
no credential lookup; a blocked submitted username (with a username limiter
configured, non-empty credentials, and the IP not already blocked) does the
same and additionally records exactly one failed attempt against the
caller's IP when an IP limiter is configured — and none when it is not. -/
theorem C8_blocked_shortcircuit (ipRL userRL : Option RateLimiter) (now : Nat)
    (clientIP username password : String) (db : Except String (List ResultRowM))
    (checkHash : String → String → Bool) (pwF pkF : String) (updateOk : Bool) :
    (limiterBlocked ipRL clientIP now = true →
      authAction true ipRL userRL now clientIP username password db checkHash
          pwF pkF updateOk =
        { lookupPerformed := false, comparisons := [], ipRecorded := 0,
          userRecorded := 0, ipReset := false, userReset := false,
          outcome := .failPage, delayed := true }) ∧
    (limiterBlocked ipRL clientIP now = false → username.length ≠ 0 →
      password.length ≠ 0 → limiterBlocked userRL username now = true →
      authAction true ipRL userRL now clientIP username password db checkHash
          pwF pkF updateOk =
        { lookupPerformed := false, comparisons := [],
          ipRecorded := if ipRL.isSome then 1 else 0, userRecorded := 0,
          ipReset := false, userReset := false,
          outcome := .failPage, delayed := true }) := by
  constructor
  · intro hb
    simp [authAction, hb]
  · intro hnb hu hp hub
    simp [authAction, hnb, hu, hp, hub]

/-- C8 witness: the blocked-IP case at a concrete blocked IP limiter, and
the blocked-username case with an IP limiter configured, which records
exactly one failed IP attempt. -/
theorem C8_witness :
    authAction true (some (rlBlockedId "1.2.3.4")) none 3 "1.2.3.4" "alice"
        "pw" (.ok []) (fun _ _ => false) "pass" "id" true =
      { lookupPerformed := false, comparisons := [], ipRecorded := 0,
        userRecorded := 0, ipReset := false, userReset := false,
        outcome := .failPage, delayed := true } ∧
    authAction true (some (NewRateLimiter 3 10)) (some (rlBlockedId "alice")) 3
        "1.2.3.4" "alice" "pw" (.ok []) (fun _ _ => false) "pass" "id" true =
      { lookupPerformed := false, comparisons := [], ipRecorded := 1,
        userRecorded := 0, ipReset := false, userReset := false,
        outcome := .failPage, delayed := true } := by
  constructor
  · exact (C8_blocked_shortcircuit (some (rlBlockedId "1.2.3.4")) none 3
      "1.2.3.4" "alice" "pw" (.ok []) (fun _ _ => false) "pass" "id" true).1
      (by decide)
  · exact (C8_blocked_shortcircuit (some (NewRateLimiter 3 10))
      (some (rlBlockedId "alice")) 3 "1.2.3.4" "alice" "pw" (.ok [])
      (fun _ _ => false) "pass" "id" true).2 (by decide) (by decide)
      (by decide) (by decide)

/-! ### Claim C9 -/

/-- The string built by the legacy SELECT-field loop is at least two
characters long for a non-empty field list. -/
theorem sfg_len (f : SQLField) (rest : List SQLField) :
    2 ≤ (selectFieldsGo (f :: rest)).data.length := by
  have h2 : (", " : String).data.length = 2 := rfl
  simp only [selectFieldsGo]
  rw [String.data_append, String.data_append]
  simp only [List.length_append]
  have h3 : ([',', ' '] : List Char).length = 2 := rfl
  omega

/-- Slicing two characters off a concatenation only affects the second part
when that part is at least two characters long. -/
theorem trim2_append_left (a b : String) (h : 2 ≤ b.data.length) :
    trim2 (a ++ b) = a ++ trim2 b := by
  apply String.ext
  show ((a ++ b).data.dropLast).dropLast = (a ++ trim2 b).data
  rw [String.data_append, String.data_append]
  show ((a.data ++ b.data).dropLast).dropLast = a.data ++ (b.data.dropLast).dropLast
  have hb : b.data ≠ [] := by
    intro hc
    rw [hc] at h
    simp at h
  have hb2 : b.data.dropLast ≠ [] := by
    intro hc
    have hlen := congrArg List.length hc
    rw [List.length_dropLast, List.length_nil] at hlen
    omega
  rw [List.dropLast_append_of_ne_nil _ hb, List.dropLast_append_of_ne_nil _ hb2]

/-- The legacy append-then-slice field list equals the extended compiler's
join for non-empty field lists. -/
theorem selectClause_join (fs : List SQLField) (h : fs ≠ []) :
    trim2 (selectFieldsGo fs) = stringsJoin ", " (fs.map (·.FieldName)) := by
  induction fs with
  | nil => exact absurd rfl h
  | cons f rest ih =>
    cases rest with
    | nil =>
      show trim2 (f.FieldName ++ ", " ++ selectFieldsGo []) = _
      rw [show selectFieldsGo [] = "" from rfl, String.append_empty]
      exact trim2_append _ ", " rfl
    | cons g rest2 =>
      show trim2 (f.FieldName ++ ", " ++ selectFieldsGo (g :: rest2)) = _
      rw [trim2_append_left _ _ (sfg_len g rest2)]
      rw [ih (by simp)]
      simp only [List.map_cons, stringsJoin, String.append_assoc]

/-- From position 1 on, the extended WHERE loop coincides with the legacy
one as long as no filter uses `IN`. -/
theorem whereExt_tail (rest : List Filter) :
    ∀ i : Nat, 1 ≤ i → (∀ f ∈ rest, f.Operator ≠ "IN") →
      whereExtGo i rest = whereFoldGo rest := by
  induction rest with
  | nil => intro i _ _; rfl
  | cons f rest ih =>
    intro i hi hop
    have h0 : 0 < i := hi
    have hIN : (f.Operator == "IN") = false := by
      rw [beq_eq_false_iff_ne]
      exact hop f (List.mem_cons_self f rest)
    simp only [whereExtGo, whereFoldGo, hIN, h0, true_and, if_false,
      Bool.false_eq_true]
    rw [ih (i + 1) (by omega) (fun g hg => hop g (List.mem_cons_of_mem f hg))]
    simp

/-- For a well-formed, `IN`-free filter list the two WHERE builders agree
on both the clause text and the parameter list. -/
theorem whereClauseExt_eq (ws : List Filter) (hwf : wellFormedFilters ws)
    (hop : ∀ f ∈ ws, f.Operator ≠ "IN") :
    whereClauseExt ws = whereClause ws := by
  cases ws with
  | nil => rfl
  | cons w0 rest =>
    obtain ⟨h0, -⟩ := hwf
    have hIN : (w0.Operator == "IN") = false := by
      rw [beq_eq_false_iff_ne]
      exact hop w0 (List.mem_cons_self w0 rest)
    simp only [whereClauseExt, whereClause, List.length_cons, whereExtGo,
      whereFoldGo, hIN, h0, if_false, Bool.false_eq_true]
    rw [whereExt_tail rest 1 (by omega)
      (fun g hg => hop g (List.mem_cons_of_mem w0 hg))]
    simp [h0]

/-- C9: on every SELECT intent whose filter list is well-formed (first
filter with empty `Logic`, later filters with non-empty `Logic`) and free of
`IN` operators, and whose offset is zero, the legacy `BuildQuery` and the
extended `BuildQueryExtended` return identical statement text and identical
parameter lists. -/
theorem C9_select_equivalence (fields : List SQLField) (table : SQLTable)
    (joins : List SQLJoin) (wheres : List Filter) (group order : String)
    (limit : Int) (hwf : wellFormedFilters wheres)
    (hop : ∀ f ∈ wheres, f.Operator ≠ "IN") :
    BuildQuery QueryTypeSelect fields table joins wheres group order limit =
      some (BuildQueryExtended QueryTypeSelect fields table joins wheres group
        order limit 0) := by
  have e : (QueryTypeSelect == QueryTypeSelect) = true := by decide
  have hoff : ¬((0 : Int) > 0) := by decide
  have hsel : selectClause fields =
      (if fields.length > 0 then stringsJoin ", " (fields.map (·.FieldName))
       else "*") := by
    unfold selectClause
    cases fields with
    | nil => rfl
    | cons f rest =>
      rw [selectClause_join (f :: rest) (by simp)]
  simp only [BuildQuery, BuildQueryExtended, e, if_true,
    whereClauseExt_eq wheres hwf hop, hsel, hoff, if_false,
    String.append_empty]

/-- C9 witness: the two compilers agree on a concrete two-filter SELECT
with a field list, an ORDER BY clause and a limit. -/
theorem C9_witness :
    BuildQuery QueryTypeSelect [{ FieldName := "a", Value := .vInt 0 }]
        { TableName := "t", PKField := "id" } []
        [{ Field := "x", Operator := "=", Value := .vStr "1", Logic := "" },
         { Field := "y", Operator := ">", Value := .vInt 2, Logic := "AND" }]
        "" "ORDER BY x" 5 =
      some (BuildQueryExtended QueryTypeSelect
        [{ FieldName := "a", Value := .vInt 0 }]
        { TableName := "t", PKField := "id" } []
        [{ Field := "x", Operator := "=", Value := .vStr "1", Logic := "" },
         { Field := "y", Operator := ">", Value := .vInt 2, Logic := "AND" }]
        "" "ORDER BY x" 5 0) := by
  exact C9_select_equivalence _ _ _ _ _ _ _ ⟨rfl, by decide⟩ (by decide)

/-! ### Claim C10 -/

/-- C10: `KillAuthSession` with a configured session key and a live session
entry: on a successful token lookup returning zero rows it indexes slot 0 of
the empty result slice (a runtime panic) instead of returning nil or an
error; when at least one row matches (and the row carries the configured
primary-key field), it issues an update setting the expiry-timestamp field
to `now - 1` — a time strictly in the past — and returns nil. -/
theorem C10_kill_session_safety (skLen : Nat) (expF pkF : String) (now : Int)
    (r0 : ResultRowM) (rest : List ResultRowM)
    (hsk : 0 < skLen) (hpk : GetFieldIndex r0 pkF ≠ -1) :
    KillAuthSession skLen true (.ok []) expF pkF now =
      { result := .panicIndexOutOfRange, update := none } ∧
    KillAuthSession skLen true (.ok (r0 :: rest)) expF pkF now =
      { result := .okNil, update := some (expF, now - 1) } ∧
    now - 1 < now := by
  refine ⟨?_, ?_, ?_⟩
  · simp [KillAuthSession, hsk]
  · simp [KillAuthSession, hsk, hpk]
  · omega

/-- C10 witness: the empty-lookup panic and the one-row update evaluated at
a concrete session and row. -/
theorem C10_witness :
    KillAuthSession 7 true (.ok []) "exp" "id" 100 =
      { result := .panicIndexOutOfRange, update := none } ∧
    KillAuthSession 7 true
        (.ok [{ Fields := ["id", "exp"], Values := ["1", "t"] }]) "exp" "id"
        100 =
      { result := .okNil, update := some ("exp", 99) } ∧
    (100 : Int) - 1 < 100 := by
  exact C10_kill_session_safety 7 "exp" "id" 100
    { Fields := ["id", "exp"], Values := ["1", "t"] } [] (by decide) (by decide)

end Gomvc

